import Mathlib

/-!
Verification of the Mosquito API facade (mosquito/mapi.py) against its
specification. The facade class Mosquito exposes telemetry getters and
command senders over an MSP byte channel. We embed the facade shallowly:
numeric values are rationals, the msppg serializers become typed frame
constructors, and each method becomes a pure function from the object
state (plus the environment of the blocking wait) to a new state, an
event trace, and a result. The blocking subscriber primitive lives in
mosquito/notify.py, which is not part of the sources at hand; it is
modelled from the spec (Subscription.await_fresh with a version snapshot
and a timeout) where noted.
-/

namespace Mosquito

/-- The telemetry message kinds for which the facade constructor creates one
subscriber each and registers the matching publisher as the MSP handler
(mapi.py lines 38-64). -/
inductive Telemetry
  | position_board_connected
  | firmware_version
  | attitude
  | velocities
  | motors
  | voltage
  | PID
  deriving DecidableEq, Repr, Inhabited

/-- A typed MSP frame. Each msppg serialize_X call in mapi.py is embedded as
the constructor X applied to the serialized arguments; the byte-level codec
is outside the facade and not needed by the facade-level properties. -/
inductive Frame
  | POSITION_BOARD_CONNECTED_Request
  | FIRMWARE_VERSION_Request
  | ATTITUDE_RADIANS_Request
  | GET_VELOCITIES_Request
  | GET_MOTOR_NORMAL_Request
  | GET_BATTERY_VOLTAGE_Request
  | GET_PID_CONSTANTS_Request
  | WP_ARM_Request
  | WP_DISARM_Request
  | SET_POSITIONING_BOARD (has_position_board : Bool)
  | SET_MOSQUITO_VERSION (is_mosquito_90 : Bool)
  | ESC_CALIBRATION (n : Int)
  | RC_CALIBRATION (stage : Int)
  | SET_MOTOR_NORMAL (values : List ℚ)
  | SET_BATTERY_VOLTAGE (voltage : ℚ)
  | SET_LEDS (status : List ℚ)
  | CLEAR_EEPROM (sec : Int)
  | SET_EMERGENCY_STOP (n : Int)
  | WP_MISSION_BEGIN (n : Int)
  | WP_TAKE_OFF (height : Int) (z : Int)
  | WP_LAND (z : Int)
  | WP_HOVER (tm : Int) (z : Int)
  | WP_CHANGE_ALTITUDE (height : Int) (z : Int)
  | WP_GO_FORWARD (tm : Int) (z : Int)
  | WP_GO_BACKWARD (tm : Int) (z : Int)
  | WP_GO_LEFT (tm : Int) (z : Int)
  | WP_GO_RIGHT (tm : Int) (z : Int)
  | WP_TURN_CCW (angle : Int) (z : Int)
  | WP_TURN_CW (angle : Int) (z : Int)
  deriving DecidableEq, Repr

/-- Observable events of a facade call: handing a frame to the transport
(self._send_data), recording a subscription version snapshot, and blocking
until the version advances past the snapshot. The snapshot and wait events
are produced inside the blocking get_value primitive, modelled from the
spec (PendingWait / Subscription.await_fresh). -/
inductive Event
  | send (f : Frame)
  | snapshot (t : Telemetry) (version : Nat)
  | wait (t : Telemetry) (since : Nat)
  deriving DecidableEq, Repr, Inhabited

/-- Errors a facade call can surface: the spec's RequestTimeout when no
fresh value is published within the timeout, and Python's IndexError for an
out-of-range sequence index. -/
inductive Err
  | RequestTimeout
  | IndexError
  deriving DecidableEq, Repr

/-- One synchronization slot per telemetry kind. Modelled from the spec:
mosquito/notify.py (class Subscriber) is not among the sources; the spec's
Subscription holds the latest decoded value (empty/unset initially) and a
monotonically increasing version counter. -/
structure Subscriber where
  latest : Option (List ℚ)
  version : Nat
  deriving DecidableEq, Repr

/-- The mutable attributes of a Mosquito instance set up in __init__
(mapi.py lines 38-70): one subscriber per telemetry kind, plus the private
shadow caches for motors, LEDs, voltage and PID constants. -/
structure MosquitoState where
  position_board_connected_sub : Subscriber
  firmware_version_sub : Subscriber
  attitude_sub : Subscriber
  velocities_sub : Subscriber
  motors_sub : Subscriber
  voltage_sub : Subscriber
  PID_sub : Subscriber
  motor_values : List ℚ
  led_status : List ℚ
  voltage : ℚ
  controller_constants : List ℚ
  deriving DecidableEq, Repr

/-- The state right after __init__: fresh subscribers (unset value, version
0, per the spec's Subscription lifecycle) and the zeroed caches of mapi.py
lines 66-70. -/
def initState : MosquitoState :=
  { position_board_connected_sub := ⟨none, 0⟩
    firmware_version_sub := ⟨none, 0⟩
    attitude_sub := ⟨none, 0⟩
    velocities_sub := ⟨none, 0⟩
    motors_sub := ⟨none, 0⟩
    voltage_sub := ⟨none, 0⟩
    PID_sub := ⟨none, 0⟩
    motor_values := [0, 0, 0, 0]
    led_status := [0, 0, 0]
    voltage := 0
    controller_constants := List.replicate 19 0 }

/-- The subscriber a telemetry kind owns, following the field-per-kind
layout of __init__. -/
def subOf (t : Telemetry) (st : MosquitoState) : Subscriber :=
  match t with
  | .position_board_connected => st.position_board_connected_sub
  | .firmware_version => st.firmware_version_sub
  | .attitude => st.attitude_sub
  | .velocities => st.velocities_sub
  | .motors => st.motors_sub
  | .voltage => st.voltage_sub
  | .PID => st.PID_sub

/-- The MSP handler registered for telemetry kind t (mapi.py lines 58-64)
is the publisher bound to t's own subscriber; its effect is modelled from
the spec (DispatchHub.publish): store the value as latest and increment the
version of that one subscriber. -/
def publish (t : Telemetry) (v : List ℚ) (st : MosquitoState) : MosquitoState :=
  match t with
  | .position_board_connected =>
      { st with position_board_connected_sub :=
          ⟨some v, st.position_board_connected_sub.version + 1⟩ }
  | .firmware_version =>
      { st with firmware_version_sub := ⟨some v, st.firmware_version_sub.version + 1⟩ }
  | .attitude =>
      { st with attitude_sub := ⟨some v, st.attitude_sub.version + 1⟩ }
  | .velocities =>
      { st with velocities_sub := ⟨some v, st.velocities_sub.version + 1⟩ }
  | .motors =>
      { st with motors_sub := ⟨some v, st.motors_sub.version + 1⟩ }
  | .voltage =>
      { st with voltage_sub := ⟨some v, st.voltage_sub.version + 1⟩ }
  | .PID =>
      { st with PID_sub := ⟨some v, st.PID_sub.version + 1⟩ }

/-- Modelled from the spec: the events of the blocking get_value call on a
subscriber (notify.py is not among the sources). Per the spec it records
since = version (PendingWait) and then blocks until the version advances
past that snapshot or the timeout fires. -/
def getValueEvents (t : Telemetry) (sub : Subscriber) : List Event :=
  [.snapshot t sub.version, .wait t sub.version]

/-- Modelled from the spec: the value the blocking get_value call yields.
arrival is the value published into this subscription during the wait
window; none means nothing fresh arrived before the timeout, which the
spec surfaces to the getter as RequestTimeout. -/
def getValueResult (arrival : Option (List ℚ)) : Except Err (List ℚ) :=
  match arrival with
  | none => .error .RequestTimeout
  | some v => .ok v

/-- Python sequence indexing v[i] for a non-negative index: IndexError when
i is out of range. -/
def pyIndex (v : List ℚ) (i : Nat) : Except Err ℚ :=
  match v[i]? with
  | none => .error .IndexError
  | some x => .ok x

/-- The float constant math.pi used by get_attitude, as a rational. -/
def mathPi : ℚ := 3.141592653589793

/-- position_board_connected (mapi.py lines 73-81): send the
POSITION_BOARD_CONNECTED request, then block on the kind's subscriber;
the result is bool(value), the truthiness of the delivered tuple. -/
def position_board_connected (st : MosquitoState) (arrival : Option (List ℚ)) :
    List Event × Except Err Bool :=
  (Event.send .POSITION_BOARD_CONNECTED_Request ::
     getValueEvents .position_board_connected st.position_board_connected_sub,
   (getValueResult arrival).map fun v => !v.isEmpty)

/-- get_firmware_version (mapi.py lines 83-91): send the FIRMWARE_VERSION
request, block on the subscriber, return element 0 of the value. -/
def get_firmware_version (st : MosquitoState) (arrival : Option (List ℚ)) :
    List Event × Except Err ℚ :=
  (Event.send .FIRMWARE_VERSION_Request ::
     getValueEvents .firmware_version st.firmware_version_sub,
   (getValueResult arrival).bind fun v => pyIndex v 0)

/-- get_attitude (mapi.py lines 93-104): send the ATTITUDE_RADIANS request,
block on the subscriber; return the tuple unchanged when degrees is false,
otherwise each angle multiplied by 180/math.pi. -/
def get_attitude (st : MosquitoState) (degrees : Bool) (arrival : Option (List ℚ)) :
    List Event × Except Err (List ℚ) :=
  (Event.send .ATTITUDE_RADIANS_Request :: getValueEvents .attitude st.attitude_sub,
   (getValueResult arrival).map fun attitude =>
     if !degrees then attitude else attitude.map fun angle => angle * 180 / mathPi)

/-- get_velocities (mapi.py lines 106-114): send the GET_VELOCITIES request,
block on the subscriber, return the tuple. -/
def get_velocities (st : MosquitoState) (arrival : Option (List ℚ)) :
    List Event × Except Err (List ℚ) :=
  (Event.send .GET_VELOCITIES_Request :: getValueEvents .velocities st.velocities_sub,
   getValueResult arrival)

/-- get_voltage (mapi.py lines 116-125): send the GET_BATTERY_VOLTAGE
request, block on the subscriber, return element 0 of the value. -/
def get_voltage (st : MosquitoState) (arrival : Option (List ℚ)) :
    List Event × Except Err ℚ :=
  (Event.send .GET_BATTERY_VOLTAGE_Request :: getValueEvents .voltage st.voltage_sub,
   (getValueResult arrival).bind fun v => pyIndex v 0)

/-- get_motors (mapi.py lines 127-136): send the GET_MOTOR_NORMAL request,
block on the subscriber, return the tuple. -/
def get_motors (st : MosquitoState) (arrival : Option (List ℚ)) :
    List Event × Except Err (List ℚ) :=
  (Event.send .GET_MOTOR_NORMAL_Request :: getValueEvents .motors st.motors_sub,
   getValueResult arrival)

/-- get_PID (mapi.py lines 138-146): send the GET_PID_CONSTANTS request,
block on the subscriber, return the tuple. -/
def get_PID (st : MosquitoState) (arrival : Option (List ℚ)) :
    List Event × Except Err (List ℚ) :=
  (Event.send .GET_PID_CONSTANTS_Request :: getValueEvents .PID st.PID_sub,
   getValueResult arrival)

/-- get_motor (mapi.py lines 257-267): call get_motors and index the tuple
at motor - 1. -/
def get_motor (st : MosquitoState) (arrival : Option (List ℚ)) (motor : Nat) :
    List Event × Except Err ℚ :=
  let motor_values := get_motors st arrival
  (motor_values.1, motor_values.2.bind fun vs => pyIndex vs (motor - 1))

/-- set_motors (mapi.py lines 229-240): store the values as the motor
shadow cache, then send SET_MOTOR_NORMAL with all four values. -/
def set_motors (st : MosquitoState) (values : List ℚ) : MosquitoState × List Event :=
  ({ st with motor_values := values }, [.send (.SET_MOTOR_NORMAL values)])

/-- Sequential evaluation of a list of fallible slot computations, as a
Python list comprehension evaluates left to right: the first raised error
aborts the whole comprehension. -/
def seqSlots : List (Except Err ℚ) → Except Err (List ℚ)
  | [] => .ok []
  | x :: xs => x.bind fun v => (seqSlots xs).map fun vs => v :: vs

/-- set_motor (mapi.py lines 211-227): rebuild the full four-slot tuple
from the cached motor values with slot motor - 1 replaced by value, then
delegate to set_motors. The Python comprehension indexes the cache raw at
i for i in range(4), so a cache shorter than the indices it visits raises
IndexError before the assignment and the send. -/
def set_motor (st : MosquitoState) (motor : Nat) (value : ℚ) :
    Except Err (MosquitoState × List Event) :=
  let motor_idx := motor - 1
  (seqSlots ((List.range 4).map fun i =>
      if i ≠ motor_idx then pyIndex st.motor_values i else .ok value)).map
    fun values => set_motors st values

/-- set_voltage (mapi.py lines 242-255): store the voltage in the private
cache, then send SET_BATTERY_VOLTAGE. -/
def set_voltage (st : MosquitoState) (v : ℚ) : MosquitoState × List Event :=
  ({ st with voltage := v }, [.send (.SET_BATTERY_VOLTAGE v)])

/-- set_leds (mapi.py lines 319-334): for each of red, green, blue in that
order, keep the cached status when the argument is None and take the
argument otherwise; store the merged triple and send SET_LEDS with it. The
comprehension indexes the cached status raw at idx, so a status tuple
shorter than a visited index raises IndexError before the assignment and
the send. -/
def set_leds (st : MosquitoState) (red green blue : Option ℚ) :
    Except Err (MosquitoState × List Event) :=
  (seqSlots (([red, green, blue].enum).map fun p =>
      match p.2 with
      | none => pyIndex st.led_status p.1
      | some v => .ok v)).map
    fun status => ({ st with led_status := status }, [.send (.SET_LEDS status)])

/-- Python semantics of a method body that assigns an attribute and then
performs one transport write per send event: an exception raised by the
write propagates only after the assignment has happened, so the post-state
is the same whether the write succeeds or fails. writeOk says which frames
the transport accepts; the Bool result is whether every write succeeded. -/
def runWrites (writeOk : Frame → Bool) (r : MosquitoState × List Event) :
    MosquitoState × Bool :=
  (r.1, r.2.all fun e => match e with | .send f => writeOk f | _ => true)

/-- arm (mapi.py lines 148-155): send the WP_ARM request, nothing else. -/
def arm (st : MosquitoState) : MosquitoState × List Event :=
  (st, [.send .WP_ARM_Request])

/-- disarm (mapi.py lines 157-164): send the WP_DISARM request. -/
def disarm (st : MosquitoState) : MosquitoState × List Event :=
  (st, [.send .WP_DISARM_Request])

/-- set_position_board (mapi.py lines 166-176): send SET_POSITIONING_BOARD. -/
def set_position_board (st : MosquitoState) (has_position_board : Bool) :
    MosquitoState × List Event :=
  (st, [.send (.SET_POSITIONING_BOARD has_position_board)])

/-- set_mosquito_version (mapi.py lines 178-188): send SET_MOSQUITO_VERSION. -/
def set_mosquito_version (st : MosquitoState) (is_mosquito_90 : Bool) :
    MosquitoState × List Event :=
  (st, [.send (.SET_MOSQUITO_VERSION is_mosquito_90)])

/-- calibrate_ESCs (mapi.py lines 190-198): send ESC_CALIBRATION(0). -/
def calibrate_ESCs (st : MosquitoState) : MosquitoState × List Event :=
  (st, [.send (.ESC_CALIBRATION 0)])

/-- calibrate_transmitter (mapi.py lines 200-209): send RC_CALIBRATION(stage). -/
def calibrate_transmitter (st : MosquitoState) (stage : Int) :
    MosquitoState × List Event :=
  (st, [.send (.RC_CALIBRATION stage)])

/-- clear_EEPROM (mapi.py lines 336-345): send CLEAR_EEPROM(section). -/
def clear_EEPROM (st : MosquitoState) (sec : Int) : MosquitoState × List Event :=
  (st, [.send (.CLEAR_EEPROM sec)])

/-- stop (mapi.py lines 347-355): send SET_EMERGENCY_STOP(0). -/
def stop (st : MosquitoState) : MosquitoState × List Event :=
  (st, [.send (.SET_EMERGENCY_STOP 0)])

/-- execute_mission (mapi.py lines 357-364): send WP_MISSION_BEGIN(1). -/
def execute_mission (st : MosquitoState) : MosquitoState × List Event :=
  (st, [.send (.WP_MISSION_BEGIN 1)])

/-- take_off (mapi.py lines 366-375): send WP_TAKE_OFF(height, 0); the
Python default for height is 100. -/
def take_off (st : MosquitoState) (height : Int) : MosquitoState × List Event :=
  (st, [.send (.WP_TAKE_OFF height 0)])

/-- land (mapi.py lines 377-384): send WP_LAND(0). -/
def land (st : MosquitoState) : MosquitoState × List Event :=
  (st, [.send (.WP_LAND 0)])

/-- hover (mapi.py lines 386-395): send WP_HOVER(time, 0). -/
def hover (st : MosquitoState) (tm : Int) : MosquitoState × List Event :=
  (st, [.send (.WP_HOVER tm 0)])

/-- change_height (mapi.py lines 397-407): send WP_CHANGE_ALTITUDE(height, 0). -/
def change_height (st : MosquitoState) (height : Int) : MosquitoState × List Event :=
  (st, [.send (.WP_CHANGE_ALTITUDE height 0)])

/-- move_forward (mapi.py lines 409-418): send WP_GO_FORWARD(time, 0). -/
def move_forward (st : MosquitoState) (tm : Int) : MosquitoState × List Event :=
  (st, [.send (.WP_GO_FORWARD tm 0)])

/-- move_backwards (mapi.py lines 420-429): send WP_GO_BACKWARD(time, 0). -/
def move_backwards (st : MosquitoState) (tm : Int) : MosquitoState × List Event :=
  (st, [.send (.WP_GO_BACKWARD tm 0)])

/-- move_left (mapi.py lines 431-440): send WP_GO_LEFT(time, 0). -/
def move_left (st : MosquitoState) (tm : Int) : MosquitoState × List Event :=
  (st, [.send (.WP_GO_LEFT tm 0)])

/-- move_right (mapi.py lines 442-451): send WP_GO_RIGHT(time, 0). -/
def move_right (st : MosquitoState) (tm : Int) : MosquitoState × List Event :=
  (st, [.send (.WP_GO_RIGHT tm 0)])

/-- turn (mapi.py lines 453-466): send WP_TURN_CCW(angle, 0) when
angle > 0, and WP_TURN_CW(angle, 0) otherwise. -/
def turn (st : MosquitoState) (angle : Int) : MosquitoState × List Event :=
  if angle > 0 then (st, [.send (.WP_TURN_CCW angle 0)])
  else (st, [.send (.WP_TURN_CW angle 0)])

/-- True of an event that hands a frame to the transport. -/
def isSend : Event → Bool
  | .send _ => true
  | _ => false

/-- True of an event that records a subscription version snapshot. -/
def isSnapshot : Event → Bool
  | .snapshot _ _ => true
  | _ => false

/-- The ordering the spec prescribes for a getter trace: every send of a
frame is preceded by some version snapshot. -/
def snapshotBeforeSend (tr : List Event) : Prop :=
  ∀ i, i < tr.length → isSend (tr.getD i default) = true →
    ∃ j, j < i ∧ isSnapshot (tr.getD j default) = true

instance (tr : List Event) : Decidable (snapshotBeforeSend tr) := by
  unfold snapshotBeforeSend
  exact Nat.decidableBallLT tr.length fun i h => _

/-- C1 counterexample: in the code, get_voltage hands the request frame to
the transport as its very first action; no version snapshot precedes any
send in its trace, so the claimed snapshot-then-send ordering fails at the
freshly initialized state. -/
theorem get_voltage_sends_without_prior_snapshot :
    ¬ snapshotBeforeSend (get_voltage initState none).1 := by
  decide

/-- C1 amended: every telemetry getter first sends its request frame and
only then blocks on its subscriber; the version snapshot and the wait both
happen after the send, so a reply arriving between the send and the wait
can be missed. The trace of each getter is exactly send, then snapshot of
the current subscriber version, then wait on that snapshot. -/
theorem getters_send_then_snapshot_then_wait (st : MosquitoState)
    (arrival : Option (List ℚ)) (degrees : Bool) :
    (position_board_connected st arrival).1 =
      [.send .POSITION_BOARD_CONNECTED_Request,
       .snapshot .position_board_connected st.position_board_connected_sub.version,
       .wait .position_board_connected st.position_board_connected_sub.version] ∧
    (get_firmware_version st arrival).1 =
      [.send .FIRMWARE_VERSION_Request,
       .snapshot .firmware_version st.firmware_version_sub.version,
       .wait .firmware_version st.firmware_version_sub.version] ∧
    (get_attitude st degrees arrival).1 =
      [.send .ATTITUDE_RADIANS_Request,
       .snapshot .attitude st.attitude_sub.version,
       .wait .attitude st.attitude_sub.version] ∧
    (get_velocities st arrival).1 =
      [.send .GET_VELOCITIES_Request,
       .snapshot .velocities st.velocities_sub.version,
       .wait .velocities st.velocities_sub.version] ∧
    (get_voltage st arrival).1 =
      [.send .GET_BATTERY_VOLTAGE_Request,
       .snapshot .voltage st.voltage_sub.version,
       .wait .voltage st.voltage_sub.version] ∧
    (get_motors st arrival).1 =
      [.send .GET_MOTOR_NORMAL_Request,
       .snapshot .motors st.motors_sub.version,
       .wait .motors st.motors_sub.version] ∧
    (get_PID st arrival).1 =
      [.send .GET_PID_CONSTANTS_Request,
       .snapshot .PID st.PID_sub.version,
       .wait .PID st.PID_sub.version] := by
  refine ⟨rfl, rfl, rfl, rfl, rfl, rfl, rfl⟩

/-- C2: when nothing fresh is published within the timeout, every telemetry
getter fails with RequestTimeout, and whenever get_voltage returns a value
it is exactly the head of a tuple published to the voltage subscription —
never a silent 0.0 default. -/
theorem getters_fail_on_timeout (st : MosquitoState) (degrees : Bool) :
    ((position_board_connected st none).2 = .error .RequestTimeout ∧
     (get_firmware_version st none).2 = .error .RequestTimeout ∧
     (get_attitude st degrees none).2 = .error .RequestTimeout ∧
     (get_velocities st none).2 = .error .RequestTimeout ∧
     (get_voltage st none).2 = .error .RequestTimeout ∧
     (get_motors st none).2 = .error .RequestTimeout ∧
     (get_PID st none).2 = .error .RequestTimeout) ∧
    (∀ arrival x, (get_voltage st arrival).2 = .ok x →
      ∃ rest, arrival = some (x :: rest)) := by
  refine ⟨⟨rfl, rfl, rfl, rfl, rfl, rfl, rfl⟩, ?_⟩
  intro arrival x h
  match arrival with
  | none => simp [get_voltage, getValueResult, Except.bind] at h
  | some v =>
    match v with
    | [] => simp [get_voltage, getValueResult, Except.bind, pyIndex] at h
    | a :: rest =>
      refine ⟨rest, ?_⟩
      simp [get_voltage, getValueResult, Except.bind, pyIndex] at h
      simp [h]

/-- C2 witness: at the initial state with the tuple (37/5) published to the
voltage subscription, get_voltage returns 37/5 and that value is the head
of the published tuple. -/
theorem getters_fail_on_timeout_witness :
    (get_voltage initState (some [37/5])).2 = .ok (37/5) ∧
    ∃ rest, (some [(37 : ℚ)/5] : Option (List ℚ)) = some (37/5 :: rest) := by
  exact ⟨rfl,
    (getters_fail_on_timeout initState false).2 (some [37/5]) (37/5) rfl⟩

/-- C5: for every received attitude tuple, get_attitude with degrees true
returns each angle multiplied by 180/pi, and with degrees false (the
Python default) returns the received radian values unchanged; the
conversion is applied in the facade to the decoded tuple. -/
theorem get_attitude_unit_conversion (st : MosquitoState) (vs : List ℚ) :
    (get_attitude st true (some vs)).2 =
      .ok (vs.map fun angle => angle * 180 / mathPi) ∧
    (get_attitude st false (some vs)).2 = .ok vs := by
  exact ⟨rfl, rfl⟩

/-- C6: every command operation leaves the facade state — in particular
every subscriber — untouched and produces a trace that is exactly one send
of its frame: no snapshot, no wait, no other effect. -/
theorem commands_send_exactly_one_frame (st : MosquitoState)
    (b b9 : Bool) (stage sec height tm a : Int) :
    arm st = (st, [.send .WP_ARM_Request]) ∧
    disarm st = (st, [.send .WP_DISARM_Request]) ∧
    set_position_board st b = (st, [.send (.SET_POSITIONING_BOARD b)]) ∧
    set_mosquito_version st b9 = (st, [.send (.SET_MOSQUITO_VERSION b9)]) ∧
    calibrate_ESCs st = (st, [.send (.ESC_CALIBRATION 0)]) ∧
    calibrate_transmitter st stage = (st, [.send (.RC_CALIBRATION stage)]) ∧
    stop st = (st, [.send (.SET_EMERGENCY_STOP 0)]) ∧
    execute_mission st = (st, [.send (.WP_MISSION_BEGIN 1)]) ∧
    take_off st height = (st, [.send (.WP_TAKE_OFF height 0)]) ∧
    land st = (st, [.send (.WP_LAND 0)]) ∧
    hover st tm = (st, [.send (.WP_HOVER tm 0)]) ∧
    change_height st height = (st, [.send (.WP_CHANGE_ALTITUDE height 0)]) ∧
    move_forward st tm = (st, [.send (.WP_GO_FORWARD tm 0)]) ∧
    move_backwards st tm = (st, [.send (.WP_GO_BACKWARD tm 0)]) ∧
    move_left st tm = (st, [.send (.WP_GO_LEFT tm 0)]) ∧
    move_right st tm = (st, [.send (.WP_GO_RIGHT tm 0)]) ∧
    clear_EEPROM st sec = (st, [.send (.CLEAR_EEPROM sec)]) ∧
    ((turn st a).1 = st ∧
      ((turn st a).2 = [.send (.WP_TURN_CCW a 0)] ∨
       (turn st a).2 = [.send (.WP_TURN_CW a 0)])) := by
  refine ⟨rfl, rfl, rfl, rfl, rfl, rfl, rfl, rfl, rfl, rfl, rfl, rfl, rfl,
    rfl, rfl, rfl, rfl, ?_, ?_⟩
  · unfold turn; split <;> rfl
  · unfold turn; split
    · exact Or.inl rfl
    · exact Or.inr rfl

/-- C7: each telemetry kind owns its dedicated subscriber, and the handler
for kind A publishes only into A's subscriber: it stores the value and
bumps only A's version, leaving the subscriber of every other kind B
completely unchanged. -/
theorem publish_isolation (A B : Telemetry) (v : List ℚ) (st : MosquitoState)
    (h : A ≠ B) :
    subOf B (publish A v st) = subOf B st ∧
    subOf A (publish A v st) = ⟨some v, (subOf A st).version + 1⟩ := by
  constructor
  · cases A <;> cases B <;> first | exact absurd rfl h | rfl
  · cases A <;> rfl

/-- C7 witness: publishing a voltage tuple leaves the attitude subscriber
of the initial state unchanged while the voltage subscriber gets the value
at version 1. -/
theorem publish_isolation_witness :
    subOf .attitude (publish .voltage [5] initState) = subOf .attitude initState ∧
    subOf .voltage (publish .voltage [5] initState) =
      ⟨some [5], (subOf .voltage initState).version + 1⟩ :=
  publish_isolation .voltage .attitude [5] initState (by decide)

/-- C8: turn sends the counter-clockwise frame carrying the angle when the
angle is positive and the clockwise frame carrying the same angle
otherwise; turn of 0 sends the clockwise frame. -/
theorem turn_direction (st : MosquitoState) (angle : Int) :
    (angle > 0 → (turn st angle).2 = [.send (.WP_TURN_CCW angle 0)]) ∧
    (¬ angle > 0 → (turn st angle).2 = [.send (.WP_TURN_CW angle 0)]) ∧
    (turn st 0).2 = [.send (.WP_TURN_CW 0 0)] := by
  refine ⟨fun hpos => ?_, fun hneg => ?_, ?_⟩
  · unfold turn; rw [if_pos hpos]
  · unfold turn; rw [if_neg hneg]
  · unfold turn; rfl

/-- C8 witness: turn at angle 5 sends the counter-clockwise frame and turn
at angle -3 and at angle 0 send the clockwise frame. -/
theorem turn_direction_witness :
    (turn initState 5).2 = [.send (.WP_TURN_CCW 5 0)] ∧
    (turn initState (-3)).2 = [.send (.WP_TURN_CW (-3) 0)] ∧
    (turn initState 0).2 = [.send (.WP_TURN_CW 0 0)] :=
  ⟨(turn_direction initState 5).1 (by decide),
   (turn_direction initState (-3)).2.1 (by decide),
   (turn_direction initState 0).2.2⟩

/-- C9: set_voltage writes only the private voltage cache and sends the
SET_BATTERY_VOLTAGE frame; the value get_voltage returns is untouched by a
preceding set_voltage and depends solely on what is published to the
voltage subscription. -/
theorem set_voltage_cache_not_read_by_getter (st st2 : MosquitoState) (v : ℚ)
    (arrival : Option (List ℚ)) :
    (set_voltage st v).1 = { st with voltage := v } ∧
    (set_voltage st v).2 = [.send (.SET_BATTERY_VOLTAGE v)] ∧
    (get_voltage ((set_voltage st v).1) arrival).2 = (get_voltage st arrival).2 ∧
    (get_voltage st arrival).2 = (get_voltage st2 arrival).2 :=
  ⟨rfl, rfl, rfl, rfl⟩

/-- The range(4) of the set_motor comprehension, as an explicit list. -/
lemma range_four : List.range 4 = [0, 1, 2, 3] := rfl

/-- A list of rationals of length four is literally a four-element list. -/
lemma eq_four_list {l : List ℚ} (h : l.length = 4) :
    ∃ a b c d, l = [a, b, c, d] := by
  rcases l with _ | ⟨a, _ | ⟨b, _ | ⟨c, _ | ⟨d, _ | ⟨e, t⟩⟩⟩⟩⟩ <;>
    first
      | exact ⟨_, _, _, _, rfl⟩
      | (simp only [List.length_cons, List.length_nil] at h; omega)

/-- A list of rationals of length three is literally a three-element list. -/
lemma eq_three_list {l : List ℚ} (h : l.length = 3) :
    ∃ x y z, l = [x, y, z] := by
  rcases l with _ | ⟨x, _ | ⟨y, _ | ⟨z, _ | ⟨w, t⟩⟩⟩⟩ <;>
    first
      | exact ⟨_, _, _, rfl⟩
      | (simp only [List.length_cons, List.length_nil] at h; omega)

/-- C3: when the caches have their invariant lengths (four cached motor
values, three cached LED states, as __init__ establishes), set_motor with
motor m and value v sends the complete four-slot SET_MOTOR_NORMAL payload
whose slot m-1 is v while every other slot keeps the cached motor value,
and set_leds sends the complete three-slot SET_LEDS payload in which each
LED argument left as none keeps the cached status for that slot and each
named argument replaces it; in both cases the merged payload is also
stored as the new cache. -/
theorem setters_preserve_unnamed_slots (st : MosquitoState) (motor : Nat)
    (value : ℚ) (red green blue : Option ℚ)
    (h1 : 1 ≤ motor) (h2 : motor ≤ 4)
    (hm : st.motor_values.length = 4) (hl : st.led_status.length = 3) :
    (∃ vals, set_motor st motor value =
        .ok ({ st with motor_values := vals },
             [.send (.SET_MOTOR_NORMAL vals)]) ∧
      vals.length = 4 ∧
      vals.getD (motor - 1) 0 = value ∧
      ∀ i, i < 4 → i ≠ motor - 1 → vals.getD i 0 = st.motor_values.getD i 0) ∧
    (∃ status, set_leds st red green blue =
        .ok ({ st with led_status := status }, [.send (.SET_LEDS status)]) ∧
      status.length = 3 ∧
      status.getD 0 0 = red.getD (st.led_status.getD 0 0) ∧
      status.getD 1 0 = green.getD (st.led_status.getD 1 0) ∧
      status.getD 2 0 = blue.getD (st.led_status.getD 2 0)) := by
  obtain ⟨a, b, c, d, hvals⟩ := eq_four_list hm
  obtain ⟨x, y, z, hled⟩ := eq_three_list hl
  constructor
  · interval_cases motor
    · refine ⟨[value, b, c, d], ?_, by simp, rfl, ?_⟩
      · simp [set_motor, set_motors, seqSlots, pyIndex, range_four, hvals,
          Except.map, Except.bind]
      · intro i hi hne
        interval_cases i <;> simp_all [List.getD]
    · refine ⟨[a, value, c, d], ?_, by simp, rfl, ?_⟩
      · simp [set_motor, set_motors, seqSlots, pyIndex, range_four, hvals,
          Except.map, Except.bind]
      · intro i hi hne
        interval_cases i <;> simp_all [List.getD]
    · refine ⟨[a, b, value, d], ?_, by simp, rfl, ?_⟩
      · simp [set_motor, set_motors, seqSlots, pyIndex, range_four, hvals,
          Except.map, Except.bind]
      · intro i hi hne
        interval_cases i <;> simp_all [List.getD]
    · refine ⟨[a, b, c, value], ?_, by simp, rfl, ?_⟩
      · simp [set_motor, set_motors, seqSlots, pyIndex, range_four, hvals,
          Except.map, Except.bind]
      · intro i hi hne
        interval_cases i <;> simp_all [List.getD]
  · refine ⟨[red.getD x, green.getD y, blue.getD z], ?_, by simp, ?_, ?_, ?_⟩
    · cases red <;> cases green <;> cases blue <;>
        simp [set_leds, seqSlots, pyIndex, List.enum, hled, Except.map,
          Except.bind]
    · simp [hled, List.getD]
    · simp [hled, List.getD]
    · simp [hled, List.getD]

/-- C3 witness: at the initial state (four motors cached at 0, three LEDs
cached at 0), set_motor 2 1 succeeds and sends the payload with slot 1
set to 1 and the other slots still 0, and set_leds with only green given
succeeds and keeps the red and blue slots. -/
theorem setters_preserve_unnamed_slots_witness :
    (1 ≤ 2 ∧ 2 ≤ 4 ∧ initState.motor_values.length = 4 ∧
      initState.led_status.length = 3) ∧
    ((∃ vals, set_motor initState 2 1 =
        .ok ({ initState with motor_values := vals },
             [.send (.SET_MOTOR_NORMAL vals)]) ∧
      vals.length = 4 ∧
      vals.getD (2 - 1) 0 = 1 ∧
      ∀ i, i < 4 → i ≠ 2 - 1 →
        vals.getD i 0 = initState.motor_values.getD i 0) ∧
    (∃ status, set_leds initState none (some 1) none =
        .ok ({ initState with led_status := status },
             [.send (.SET_LEDS status)]) ∧
      status.length = 3 ∧
      status.getD 0 0 = Option.getD none (initState.led_status.getD 0 0) ∧
      status.getD 1 0 = Option.getD (some 1) (initState.led_status.getD 1 0) ∧
      status.getD 2 0 = Option.getD none (initState.led_status.getD 2 0))) :=
  ⟨⟨by decide, by decide, by decide, by decide⟩,
   setters_preserve_unnamed_slots initState 2 1 none (some 1) none
     (by decide) (by decide) (by decide) (by decide)⟩

/-- C4 counterexample: against a transport that rejects every write,
set_motors at the initial state still replaces the cached motor values
(0,0,0,0) by the new values (1,1,1,1) even though the write failed, so the
cache is not left unchanged on a transport failure. -/
theorem set_motors_cache_updated_despite_failed_write :
    (runWrites (fun _ => false) (set_motors initState [1, 1, 1, 1])).2 = false ∧
    initState.motor_values = [0, 0, 0, 0] ∧
    (runWrites (fun _ => false) (set_motors initState [1, 1, 1, 1])).1.motor_values
      = [1, 1, 1, 1] :=
  ⟨rfl, rfl, rfl⟩

/-- C4 amended: each stateful setter updates its shadow cache immediately,
before the send; a failed transport write leaves the cache already holding
the newly computed value (best-effort local mirroring that can drift from
the device state), not the previous one. For set_leds the post-state is
independent of the write outcome on whichever branch the comprehension
takes (a short LED cache raises IndexError before any send happens). -/
theorem setters_update_cache_before_send (writeOk : Frame → Bool)
    (st : MosquitoState) (values : List ℚ) (red green blue : Option ℚ) (v : ℚ) :
    (runWrites writeOk (set_motors st values)).1 = (set_motors st values).1 ∧
    (set_motors st values).1.motor_values = values ∧
    ((set_leds st red green blue).map fun r => (runWrites writeOk r).1) =
      ((set_leds st red green blue).map fun r => r.1) ∧
    (runWrites writeOk (set_voltage st v)).1 = (set_voltage st v).1 ∧
    (set_voltage st v).1.voltage = v := by
  refine ⟨rfl, rfl, ?_, rfl, rfl⟩
  cases set_leds st red green blue <;> rfl

/-- C10: for every motor number m between 1 and 4, get_motor returns
element m-1 (0-based) of the four-element tuple that get_motors returns:
the public interface is 1-indexed over the 0-indexed tuple. -/
theorem get_motor_indexes_get_motors (st : MosquitoState)
    (arrival : Option (List ℚ)) (motor : Nat) (vs : List ℚ)
    (h1 : 1 ≤ motor) (h2 : motor ≤ 4)
    (hv : (get_motors st arrival).2 = .ok vs) (hlen : vs.length = 4) :
    (get_motor st arrival motor).2 = .ok (vs.getD (motor - 1) 0) := by
  have hlt : motor - 1 < vs.length := by omega
  have hsome : vs[motor - 1]? = some (vs.get ⟨motor - 1, hlt⟩) :=
    List.getElem?_eq_getElem hlt
  simp [get_motor, hv, Except.bind, pyIndex, hsome,
    List.getD_eq_getElem?_getD]

/-- C10 witness: with the tuple (1,2,3,4) published to the motors
subscription of the initial state, get_motor 2 returns 2, the element at
0-based index 1. -/
theorem get_motor_indexes_get_motors_witness :
    (get_motors initState (some [1, 2, 3, 4])).2 = .ok [1, 2, 3, 4] ∧
    (get_motor initState (some [1, 2, 3, 4]) 2).2 =
      .ok (([1, 2, 3, 4] : List ℚ).getD (2 - 1) 0) :=
  ⟨rfl, get_motor_indexes_get_motors initState (some [1, 2, 3, 4]) 2
    [1, 2, 3, 4] (by decide) (by decide) rfl (by decide)⟩

end Mosquito
